import Mathlib

/-!
The gorest-skeleton module: Config, Repository and Handler.

A shallow embedding of `config.go`, `models.go`, `repository.go` and
`handlers.go`.  Go `int` is `Int` (no arithmetic is performed on it beyond
comparisons), Go `error` is `Option String` (`none` is `nil`), a Go slice is
`Option (List α)` (`none` is the `nil` slice), and methods with side effects on
the store thread the store state explicitly.
-/

set_option autoImplicit false

namespace Skeleton

/-! ## config.go -/

/-- The struct `Config` of `config.go`. -/
structure Config where
  Enabled : Bool
  MaxItems : Int
  deriving DecidableEq, Repr

/-- The function `DefaultConfig` of `config.go`. -/
def DefaultConfig : Config :=
  { Enabled := true, MaxItems := 100 }

/-- The method `(c *Config) Validate` of `config.go`.  The receiver is a
pointer, so the result carries the receiver as it is after the call next to
the returned error. -/
def Config.Validate (c : Config) : Option String × Config :=
  if c.MaxItems < 1 then
    (some "max_items must be greater than 0", c)
  else if c.MaxItems > 1000 then
    (some ("max_items cannot exceed 1000, got " ++ toString c.MaxItems), c)
  else
    (none, c)

/-! ## strconv.Atoi (Go standard library, 64-bit `int`) -/

/-- Value of a decimal digit byte, `none` for any other character. -/
def digitVal (ch : Char) : Option Nat :=
  if 48 ≤ ch.toNat ∧ ch.toNat ≤ 57 then some (ch.toNat - 48) else none

/-- Left-to-right accumulation of a digit string, `none` at the first
character that is not a decimal digit. -/
def parseDigits : List Char → Nat → Option Nat
  | [], n => some n
  | ch :: cs, n =>
    match digitVal ch with
    | none => none
    | some d => parseDigits cs (n * 10 + d)

/-- Go `strconv.Atoi`: an optional sign followed by at least one decimal
digit, the value within the range of a 64-bit `int`; `none` stands for a
non-nil error (syntax or range). -/
def Atoi (s : String) : Option Int :=
  match s.toList with
  | [] => none
  | c0 :: rest =>
    let neg : Bool := c0 = '-'
    let ds : List Char := if c0 = '-' ∨ c0 = '+' then rest else c0 :: rest
    match ds with
    | [] => none
    | _ :: _ =>
      match parseDigits ds 0 with
      | none => none
      | some un =>
        if neg then
          if un > 2 ^ 63 then none else some (-(un : Int))
        else
          if un ≥ 2 ^ 63 then none else some (un : Int)

/-! ## handlers.go: pagination parameters of `Handler.List` -/

/-- Lines 103-112 of `handlers.go`: the limit computed from the value of
`c.Query("limit")` and `h.config.MaxItems`. -/
def listLimit (limitParam : String) (maxItems : Int) : Int :=
  if limitParam ≠ "" then
    match Atoi limitParam with
    | some l =>
      if l > 0 then
        if l > maxItems then maxItems else l
      else 20
    | none => 20
  else 20

/-- Lines 114-119 of `handlers.go`: the offset computed from the value of
`c.Query("offset")`. -/
def listOffset (offsetParam : String) : Int :=
  if offsetParam ≠ "" then
    match Atoi offsetParam with
    | some o => if o ≥ 0 then o else 0
    | none => 0
  else 0

/-! ## models.go -/

/-- A `uuid.UUID` value. -/
abbrev UUID := Nat

/-- A `time.Time` value. -/
abbrev Time := Nat

/-- A Go slice `[]α`: `none` is the `nil` slice, `some []` an empty slice
that is not `nil`. -/
abbrev Slice (α : Type) := Option (List α)

/-- The struct `Item` of `models.go`; `UpdatedAt` is a pointer, `none` is
`nil`. -/
structure Item where
  ID : UUID
  Name : String
  Description : String
  UserID : UUID
  Active : Bool
  CreatedAt : Time
  UpdatedAt : Option Time
  deriving DecidableEq, Repr

/-- The struct `CreateItemRequest` of `models.go`.  Its `validate` struct tags
are `required,min=1,max=255` on `Name` and `max=1000` on `Description`. -/
structure CreateItemRequest where
  Name : String
  Description : String
  Active : Bool
  deriving DecidableEq, Repr

/-- The struct `UpdateItemRequest` of `models.go`; every field is a pointer,
`none` is `nil`. -/
structure UpdateItemRequest where
  Name : Option String
  Description : Option String
  Active : Option Bool
  deriving DecidableEq, Repr

/-- The struct `ListItemsResponse` of `models.go`; `Items` is a slice, `none`
is the `nil` slice. -/
structure ListItemsResponse where
  Items : Slice Item
  Total : Int
  Limit : Int
  Offset : Int
  deriving DecidableEq, Repr

/-! ## The database port (`database.Database`) as used by repository.go -/

/-- A statement argument or a column value (`interface{}`); `null` is the
`nil` interface value, sent to the store as SQL NULL. -/
inductive Value where
  | null
  | str (s : String)
  | bool (b : Bool)
  | uuid (u : UUID)
  | time (t : Time)
  | int (i : Int)
  deriving DecidableEq, Repr

/-- The six SQL texts of `repository.go`, in the order of the file:
`INSERT INTO skeleton_items (id, name, description, user_id, active, created_at) VALUES ($1, $2, $3, $4, $5, $6)`,
`SELECT ... FROM skeleton_items WHERE id = $1`,
`SELECT COUNT(*) FROM skeleton_items WHERE user_id = $1`,
`SELECT ... FROM skeleton_items WHERE user_id = $1 ORDER BY created_at DESC LIMIT $2 OFFSET $3`,
`UPDATE skeleton_items SET name = COALESCE($1, name), description = COALESCE($2, description), active = COALESCE($3, active), updated_at = NOW() WHERE id = $4 AND user_id = $5`,
`DELETE FROM skeleton_items WHERE id = $1 AND user_id = $2`. -/
inductive Stmt where
  | insertItem
  | selectItemByID
  | countItems
  | selectItems
  | updateItem
  | deleteItem
  deriving DecidableEq, Repr

/-- What `Exec` returns on success: `RowsAffected()` gives a count or an
error. -/
structure Result where
  RowsAffected : Except String Int

/-- What `Query` returns on success: the rows that `Next`/`Scan` deliver in
order, and the value of `rows.Err()` once iteration has stopped. -/
structure Rows where
  rows : List (List Value)
  Err : Option String

/-- The database port over a store state `σ`.  `QueryRow` gives what
`Row.Scan` will see: the columns of the first row, or the error (no rows
included). -/
structure Database (σ : Type) where
  Exec : Stmt → List Value → σ → Except String Result × σ
  QueryRow : Stmt → List Value → σ → Except String (List Value) × σ
  Query : Stmt → List Value → σ → Except String Rows × σ

/-- The `updates map[string]interface{}` argument: at most one entry per
key. -/
structure GoMap where
  entries : List (String × Value)
  deriving DecidableEq, Repr

/-- The expression `make(map[string]interface{})`. -/
def GoMap.make : GoMap := ⟨[]⟩

/-- The assignment `m[k] = v`. -/
def GoMap.set (m : GoMap) (k : String) (v : Value) : GoMap :=
  ⟨m.entries.filter (fun e => e.1 ≠ k) ++ [(k, v)]⟩

/-- The expression `m[k]`: the stored value, the `nil` interface value for a
missing key. -/
def GoMap.get (m : GoMap) (k : String) : Value :=
  (m.entries.lookup k).getD Value.null

/-- The test `_, ok := m[k]`. -/
def GoMap.has (m : GoMap) (k : String) : Bool :=
  (m.entries.lookup k).isSome

/-- The expression `len(m)`. -/
def GoMap.len (m : GoMap) : Nat := m.entries.length

/-! ## repository.go -/

/-- The interface `Repository` of `repository.go` over a store state `σ`. -/
structure Repository (σ : Type) where
  Create : Item → σ → Option String × σ
  GetByID : UUID → σ → Except String Item × σ
  List : UUID → Int → Int → σ → Except String (Slice Item × Int) × σ
  Update : UUID → UUID → GoMap → σ → Option String × σ
  Delete : UUID → UUID → σ → Option String × σ

/-- The method `repository.Create`. -/
def repository.Create {σ : Type} (db : Database σ) (item : Item) (s : σ) : Option String × σ :=
  match db.Exec Stmt.insertItem
      [Value.uuid item.ID, Value.str item.Name, Value.str item.Description,
        Value.uuid item.UserID, Value.bool item.Active, Value.time item.CreatedAt] s with
  | (Except.error err, s1) => (some ("failed to create item: " ++ err), s1)
  | (Except.ok _, s1) => (none, s1)

/-- The call `Scan(&item.ID, &item.Name, &item.Description, &item.UserID,
&item.Active, &item.CreatedAt, &item.UpdatedAt)` on the seven selected
columns. -/
def scanItem : List Value → Except String Item
  | [Value.uuid id, Value.str name, Value.str desc, Value.uuid user, Value.bool active,
      Value.time created, Value.time updated] =>
    Except.ok ⟨id, name, desc, user, active, created, some updated⟩
  | [Value.uuid id, Value.str name, Value.str desc, Value.uuid user, Value.bool active,
      Value.time created, Value.null] =>
    Except.ok ⟨id, name, desc, user, active, created, none⟩
  | _ => Except.error "sql: Scan error"

/-- The call `Scan(&total)` on the single column of the count query. -/
def scanInt : List Value → Except String Int
  | [Value.int n] => Except.ok n
  | _ => Except.error "sql: Scan error"

/-- The method `repository.GetByID`. -/
def repository.GetByID {σ : Type} (db : Database σ) (id : UUID) (s : σ) : Except String Item × σ :=
  match db.QueryRow Stmt.selectItemByID [Value.uuid id] s with
  | (Except.error err, s1) => (Except.error ("failed to get item: " ++ err), s1)
  | (Except.ok cols, s1) =>
    match scanItem cols with
    | Except.error err => (Except.error ("failed to get item: " ++ err), s1)
    | Except.ok item => (Except.ok item, s1)

/-- The loop `for rows.Next() { ... items = append(items, item) }` of
`repository.List`, from the slice accumulated so far. -/
def scanRows : List (List Value) → Slice Item → Except String (Slice Item)
  | [], items => Except.ok items
  | r :: rs, items =>
    match scanItem r with
    | Except.error err => Except.error ("failed to scan item: " ++ err)
    | Except.ok item => scanRows rs (some (items.getD [] ++ [item]))

/-- The method `repository.List`. -/
def repository.List {σ : Type} (db : Database σ) (userID : UUID) (limit offset : Int) (s : σ) :
    Except String (Slice Item × Int) × σ :=
  match db.QueryRow Stmt.countItems [Value.uuid userID] s with
  | (Except.error err, s1) => (Except.error ("failed to count items: " ++ err), s1)
  | (Except.ok cols, s1) =>
    match scanInt cols with
    | Except.error err => (Except.error ("failed to count items: " ++ err), s1)
    | Except.ok total =>
      match db.Query Stmt.selectItems [Value.uuid userID, Value.int limit, Value.int offset] s1 with
      | (Except.error err, s2) => (Except.error ("failed to list items: " ++ err), s2)
      | (Except.ok rows, s2) =>
        match scanRows rows.rows none with
        | Except.error err => (Except.error err, s2)
        | Except.ok items =>
          match rows.Err with
          | some err => (Except.error ("error iterating items: " ++ err), s2)
          | none => (Except.ok (items, total), s2)

/-- The method `repository.Update`. -/
def repository.Update {σ : Type} (db : Database σ) (id userID : UUID) (updates : GoMap) (s : σ) :
    Option String × σ :=
  match db.Exec Stmt.updateItem
      [updates.get "name", updates.get "description", updates.get "active",
        Value.uuid id, Value.uuid userID] s with
  | (Except.error err, s1) => (some ("failed to update item: " ++ err), s1)
  | (Except.ok result, s1) =>
    match result.RowsAffected with
    | Except.error err => (some ("failed to get rows affected: " ++ err), s1)
    | Except.ok rows =>
      if rows = 0 then (some "item not found or permission denied", s1) else (none, s1)

/-- The method `repository.Delete`. -/
def repository.Delete {σ : Type} (db : Database σ) (id userID : UUID) (s : σ) : Option String × σ :=
  match db.Exec Stmt.deleteItem [Value.uuid id, Value.uuid userID] s with
  | (Except.error err, s1) => (some ("failed to delete item: " ++ err), s1)
  | (Except.ok result, s1) =>
    match result.RowsAffected with
    | Except.error err => (some ("failed to get rows affected: " ++ err), s1)
    | Except.ok rows =>
      if rows = 0 then (some "item not found or permission denied", s1) else (none, s1)

/-- The function `NewRepository`. -/
def NewRepository {σ : Type} (db : Database σ) : Repository σ :=
  { Create := repository.Create db
    GetByID := repository.GetByID db
    List := repository.List db
    Update := repository.Update db
    Delete := repository.Delete db }

/-! ## handlers.go -/

/-- The request context `*fiber.Ctx` as the handlers read it: route
parameters, the values the authentication layer stored with `Locals`, the
query arguments, and what `c.BodyParser(&req)` yields for each request type
(`Except.error` is a non-nil parse error). -/
structure Ctx where
  params : List (String × String)
  locals : List (String × String)
  queries : List (String × String)
  createBody : Except String CreateItemRequest
  updateBody : Except String UpdateItemRequest

/-- The call `c.Params(key)`: the route parameter, `""` when it is missing. -/
def Ctx.Params (c : Ctx) (key : String) : String := (c.params.lookup key).getD ""

/-- The call `c.Locals(key)`: the stored value, `none` for `nil`.  The
handlers assert the value to be a string (`userID.(string)`), which is what
the authentication layer stores. -/
def Ctx.Locals (c : Ctx) (key : String) : Option String := c.locals.lookup key

/-- The call `c.Query(key)`: the query argument, `""` when it is missing. -/
def Ctx.Query (c : Ctx) (key : String) : String := (c.queries.lookup key).getD ""

/-- Library values a handler obtains from outside the module: `uuid.Parse`
(`none` is a parse error), the result of `uuid.New()` and of `time.Now()`. -/
structure Env where
  Parse : String → Option UUID
  New : UUID
  Now : Time

/-- The body a handler writes: `fiber.Map{"error": msg}`, an `Item`, a
`ListItemsResponse`, or nothing (`Send(nil)`). -/
inductive Body where
  | error (msg : String)
  | item (i : Item)
  | list (r : ListItemsResponse)
  | empty
  deriving DecidableEq, Repr

/-- A response: status code and body. -/
structure Response where
  status : Nat
  body : Body
  deriving DecidableEq, Repr

def StatusOK : Nat := 200
def StatusCreated : Nat := 201
def StatusNoContent : Nat := 204
def StatusBadRequest : Nat := 400
def StatusUnauthorized : Nat := 401
def StatusNotFound : Nat := 404
def StatusInternalServerError : Nat := 500

/-- The struct `Handler` of `handlers.go`. -/
structure Handler (σ : Type) where
  repo : Repository σ
  config : Config

/-- The function `NewHandler`. -/
def NewHandler {σ : Type} (repo : Repository σ) (config : Config) : Handler σ :=
  { repo := repo, config := config }

/-- The method `Handler.Create`. -/
def Handler.Create {σ : Type} (h : Handler σ) (env : Env) (c : Ctx) (s : σ) : Response × σ :=
  match c.createBody with
  | Except.error _ => (⟨StatusBadRequest, Body.error "Invalid request body"⟩, s)
  | Except.ok req =>
    match c.Locals "user_id" with
    | none => (⟨StatusUnauthorized, Body.error "User not authenticated"⟩, s)
    | some userID =>
      match env.Parse userID with
      | none => (⟨StatusBadRequest, Body.error "Invalid user ID"⟩, s)
      | some userUUID =>
        let item : Item :=
          { ID := env.New, Name := req.Name, Description := req.Description,
            UserID := userUUID, Active := req.Active, CreatedAt := env.Now, UpdatedAt := none }
        match h.repo.Create item s with
        | (some _, s1) => (⟨StatusInternalServerError, Body.error "Failed to create item"⟩, s1)
        | (none, s1) => (⟨StatusCreated, Body.item item⟩, s1)

/-- The method `Handler.GetByID`. -/
def Handler.GetByID {σ : Type} (h : Handler σ) (env : Env) (c : Ctx) (s : σ) : Response × σ :=
  match env.Parse (c.Params "id") with
  | none => (⟨StatusBadRequest, Body.error "Invalid ID format"⟩, s)
  | some id =>
    match h.repo.GetByID id s with
    | (Except.error _, s1) => (⟨StatusNotFound, Body.error "Item not found"⟩, s1)
    | (Except.ok item, s1) => (⟨StatusOK, Body.item item⟩, s1)

/-- The method `Handler.List`. -/
def Handler.List {σ : Type} (h : Handler σ) (env : Env) (c : Ctx) (s : σ) : Response × σ :=
  match c.Locals "user_id" with
  | none => (⟨StatusUnauthorized, Body.error "User not authenticated"⟩, s)
  | some userID =>
    match env.Parse userID with
    | none => (⟨StatusBadRequest, Body.error "Invalid user ID"⟩, s)
    | some userUUID =>
      let limit := listLimit (c.Query "limit") h.config.MaxItems
      let offset := listOffset (c.Query "offset")
      match h.repo.List userUUID limit offset s with
      | (Except.error _, s1) =>
        (⟨StatusInternalServerError, Body.error "Failed to list items"⟩, s1)
      | (Except.ok (items, total), s1) =>
        let items1 : Slice Item := if items = none then some [] else items
        (⟨StatusOK, Body.list { Items := items1, Total := total, Limit := limit, Offset := offset }⟩, s1)

/-- Lines 172-181 of `handlers.go`: the `updates` map built from the parsed
request. -/
def buildUpdates (req : UpdateItemRequest) : GoMap :=
  let updates := GoMap.make
  let updates := match req.Name with
    | some v => updates.set "name" (Value.str v)
    | none => updates
  let updates := match req.Description with
    | some v => updates.set "description" (Value.str v)
    | none => updates
  match req.Active with
  | some v => updates.set "active" (Value.bool v)
  | none => updates

/-- The method `Handler.Update`. -/
def Handler.Update {σ : Type} (h : Handler σ) (env : Env) (c : Ctx) (s : σ) : Response × σ :=
  match env.Parse (c.Params "id") with
  | none => (⟨StatusBadRequest, Body.error "Invalid ID format"⟩, s)
  | some id =>
    match c.Locals "user_id" with
    | none => (⟨StatusUnauthorized, Body.error "User not authenticated"⟩, s)
    | some userID =>
      match env.Parse userID with
      | none => (⟨StatusBadRequest, Body.error "Invalid user ID"⟩, s)
      | some userUUID =>
        match c.updateBody with
        | Except.error _ => (⟨StatusBadRequest, Body.error "Invalid request body"⟩, s)
        | Except.ok req =>
          let updates := buildUpdates req
          if updates.len = 0 then
            (⟨StatusBadRequest, Body.error "No fields to update"⟩, s)
          else
            match h.repo.Update id userUUID updates s with
            | (some _, s1) =>
              (⟨StatusInternalServerError, Body.error "Failed to update item"⟩, s1)
            | (none, s1) =>
              match h.repo.GetByID id s1 with
              | (Except.error _, s2) =>
                (⟨StatusInternalServerError, Body.error "Failed to fetch updated item"⟩, s2)
              | (Except.ok item, s2) => (⟨StatusOK, Body.item item⟩, s2)

/-- The method `Handler.Delete`. -/
def Handler.Delete {σ : Type} (h : Handler σ) (env : Env) (c : Ctx) (s : σ) : Response × σ :=
  match env.Parse (c.Params "id") with
  | none => (⟨StatusBadRequest, Body.error "Invalid ID format"⟩, s)
  | some id =>
    match c.Locals "user_id" with
    | none => (⟨StatusUnauthorized, Body.error "User not authenticated"⟩, s)
    | some userID =>
      match env.Parse userID with
      | none => (⟨StatusBadRequest, Body.error "Invalid user ID"⟩, s)
      | some userUUID =>
        match h.repo.Delete id userUUID s with
        | (some _, s1) =>
          (⟨StatusNotFound, Body.error "Item not found or permission denied"⟩, s1)
        | (none, s1) => (⟨StatusNoContent, Body.empty⟩, s1)

/-! ## A recording repository

`Spy r` behaves as `r` and appends every call it receives to a log kept next
to the store state, so that the Repository calls a handler makes can be read
off the final state. -/

/-- One call on the `Repository` interface with its arguments. -/
inductive RepoCall where
  | create (item : Item)
  | getByID (id : UUID)
  | list (userID : UUID) (limit offset : Int)
  | update (id userID : UUID) (updates : GoMap)
  | delete (id userID : UUID)
  deriving DecidableEq, Repr

/-- The calls received so far, oldest first. -/
abbrev CallLog := List RepoCall

/-- The repository `r` with a call log. -/
def Spy {σ : Type} (r : Repository σ) : Repository (σ × CallLog) :=
  { Create := fun item s =>
      ((r.Create item s.1).1, ((r.Create item s.1).2, s.2 ++ [RepoCall.create item]))
    GetByID := fun id s =>
      ((r.GetByID id s.1).1, ((r.GetByID id s.1).2, s.2 ++ [RepoCall.getByID id]))
    List := fun userID limit offset s =>
      ((r.List userID limit offset s.1).1,
        ((r.List userID limit offset s.1).2, s.2 ++ [RepoCall.list userID limit offset]))
    Update := fun id userID updates s =>
      ((r.Update id userID updates s.1).1,
        ((r.Update id userID updates s.1).2, s.2 ++ [RepoCall.update id userID updates]))
    Delete := fun id userID s =>
      ((r.Delete id userID s.1).1,
        ((r.Delete id userID s.1).2, s.2 ++ [RepoCall.delete id userID])) }

/-! ## An in-memory store for the six statements

The table `skeleton_items` as a list of rows, with the reading of each SQL
text of `repository.go`: `id` is the key of the table, `COALESCE(p, col)` is
`col` when `p` is NULL and `p` otherwise, `NOW()` is the clock of the store. -/

/-- The state of the store: the rows of `skeleton_items` and the value of
`NOW()`. -/
structure Store where
  rows : List Item
  now : Time
  deriving DecidableEq, Repr

/-- The seven selected columns of a row. -/
def itemCols (it : Item) : List Value :=
  [Value.uuid it.ID, Value.str it.Name, Value.str it.Description, Value.uuid it.UserID,
    Value.bool it.Active, Value.time it.CreatedAt,
    match it.UpdatedAt with
    | some t => Value.time t
    | none => Value.null]

/-- The expression `COALESCE(p, col)` on a text column. -/
def coalesceStr : Value → String → String
  | Value.str v, _ => v
  | _, col => col

/-- The expression `COALESCE(p, col)` on a boolean column. -/
def coalesceBool : Value → Bool → Bool
  | Value.bool v, _ => v
  | _, col => col

/-- A parameter acceptable for a text column: NULL or a string. -/
def textArg : Value → Bool
  | Value.null => true
  | Value.str _ => true
  | _ => false

/-- A parameter acceptable for a boolean column: NULL or a boolean. -/
def boolArg : Value → Bool
  | Value.null => true
  | Value.bool _ => true
  | _ => false

/-- The `WHERE id = $4 AND user_id = $5` predicate of the update and of the
delete statement. -/
def ownedBy (id userID : UUID) (it : Item) : Bool :=
  it.ID = id && it.UserID = userID

/-- The `SET` clause of the update statement on one row. -/
def setRow (a1 a2 a3 : Value) (now : Time) (it : Item) : Item :=
  { it with
    Name := coalesceStr a1 it.Name
    Description := coalesceStr a2 it.Description
    Active := coalesceBool a3 it.Active
    UpdatedAt := some now }

/-- The method `Exec` on the in-memory store. -/
def memExec : Stmt → List Value → Store → Except String Result × Store
  | Stmt.insertItem, [Value.uuid id, Value.str name, Value.str desc, Value.uuid user,
      Value.bool active, Value.time created], s =>
    if s.rows.any (fun it => it.ID = id) then
      (Except.error "duplicate key value violates unique constraint", s)
    else
      (Except.ok ⟨Except.ok 1⟩,
        { s with rows := s.rows ++ [⟨id, name, desc, user, active, created, none⟩] })
  | Stmt.updateItem, [a1, a2, a3, Value.uuid id, Value.uuid user], s =>
    if textArg a1 && textArg a2 && boolArg a3 then
      (Except.ok ⟨Except.ok ((s.rows.filter (ownedBy id user)).length : Int)⟩,
        { s with
          rows := s.rows.map
            (fun it => if ownedBy id user it then setRow a1 a2 a3 s.now it else it) })
    else
      (Except.error "invalid input for parameter", s)
  | Stmt.deleteItem, [Value.uuid id, Value.uuid user], s =>
    (Except.ok ⟨Except.ok ((s.rows.filter (ownedBy id user)).length : Int)⟩,
      { s with rows := s.rows.filter (fun it => !ownedBy id user it) })
  | _, _, s => (Except.error "statement or arguments not supported", s)

/-- The method `QueryRow` on the in-memory store. -/
def memQueryRow : Stmt → List Value → Store → Except String (List Value) × Store
  | Stmt.selectItemByID, [Value.uuid id], s =>
    match s.rows.find? (fun it => it.ID = id) with
    | some it => (Except.ok (itemCols it), s)
    | none => (Except.error "sql: no rows in result set", s)
  | Stmt.countItems, [Value.uuid user], s =>
    (Except.ok [Value.int ((s.rows.filter (fun it => it.UserID = user)).length : Int)], s)
  | _, _, s => (Except.error "statement or arguments not supported", s)

/-- The method `Query` on the in-memory store. -/
def memQuery : Stmt → List Value → Store → Except String Rows × Store
  | Stmt.selectItems, [Value.uuid user, Value.int limit, Value.int offset], s =>
    if limit < 0 then (Except.error "LIMIT must not be negative", s)
    else if offset < 0 then (Except.error "OFFSET must not be negative", s)
    else
      (Except.ok
        { rows :=
            ((((s.rows.filter (fun it => it.UserID = user)).insertionSort
              (fun a b => a.CreatedAt ≥ b.CreatedAt)).drop offset.toNat).take limit.toNat).map
              itemCols
          Err := none }, s)
  | _, _, s => (Except.error "statement or arguments not supported", s)

/-- The in-memory store as a database port. -/
def memDB : Database Store :=
  { Exec := memExec, QueryRow := memQueryRow, Query := memQuery }

/-- A database port whose every statement execution fails (no
connectivity). -/
def downDB : Database Store :=
  { Exec := fun _ _ s => (Except.error "connection refused", s)
    QueryRow := fun _ _ s => (Except.error "connection refused", s)
    Query := fun _ _ s => (Except.error "connection refused", s) }

/-- A stand-in for `uuid.Parse` on the concrete inputs below: a plain decimal
numeral is accepted as the identifier it denotes. -/
def parseNat (s : String) : Option UUID :=
  match s.toList with
  | [] => none
  | c :: cs => parseDigits (c :: cs) 0

/-- The environment of the concrete runs below. -/
def env0 : Env := { Parse := parseNat, New := 1000, Now := 77 }

/-- A store with one row, owned by user 7. -/
def store0 : Store :=
  { rows := [⟨1, "first", "a row", 7, true, 10, none⟩], now := 50 }

/-- A handler over the in-memory store with the given `MaxItems`. -/
def memHandler (maxItems : Int) : Handler Store :=
  NewHandler (NewRepository memDB) { Enabled := true, MaxItems := maxItems }

/-- The recording variant of a handler. -/
def Handler.spied {σ : Type} (h : Handler σ) : Handler (σ × CallLog) :=
  NewHandler (Spy h.repo) h.config

/-- A request of user 7 on item 1 with the given query arguments. -/
def listCtx (queries : List (String × String)) : Ctx :=
  { params := [("id", "1")], locals := [("user_id", "7")], queries := queries,
    createBody := Except.error "EOF", updateBody := Except.error "EOF" }

/-- A request of user 7 to update item `id` with the parsed body `req`. -/
def updateCtx (id : String) (req : UpdateItemRequest) : Ctx :=
  { params := [("id", id)], locals := [("user_id", "7")], queries := [],
    createBody := Except.error "EOF", updateBody := Except.ok req }

/-- A request of user 7 to create an item with the parsed body `req`. -/
def createCtx (req : CreateItemRequest) : Ctx :=
  { params := [], locals := [("user_id", "7")], queries := [],
    createBody := Except.ok req, updateBody := Except.error "EOF" }

/-- A request of user 7 on item `id` without body. -/
def itemCtx (id : String) : Ctx :=
  { params := [("id", id)], locals := [("user_id", "7")], queries := [],
    createBody := Except.error "EOF", updateBody := Except.error "EOF" }

/-- The statements received so far with their arguments, oldest first. -/
abbrev StmtLog := List (Stmt × List Value)

/-- The database port `db` with a log of the statements it receives. -/
def SpyDB {σ : Type} (db : Database σ) : Database (σ × StmtLog) :=
  { Exec := fun q args s => ((db.Exec q args s.1).1, ((db.Exec q args s.1).2, s.2 ++ [(q, args)]))
    QueryRow := fun q args s =>
      ((db.QueryRow q args s.1).1, ((db.QueryRow q args s.1).2, s.2 ++ [(q, args)]))
    Query := fun q args s =>
      ((db.Query q args s.1).1, ((db.Query q args s.1).2, s.2 ++ [(q, args)])) }

/-- A store in which item 2 exists and belongs to user 8. -/
def store1 : Store :=
  { rows := [⟨2, "second", "of user 8", 8, false, 20, none⟩], now := 50 }

/-- A handler over the database port without connectivity. -/
def downHandler : Handler Store :=
  NewHandler (NewRepository downDB) { Enabled := true, MaxItems := 100 }

/-! ## plugin.go -/

/-- A value of the host's configuration `map[string]interface{}`, by dynamic
type: the `nil` interface value, a `bool`, an `int`, an `int64`, a `string`,
or a value implementing `database.Database`. -/
inductive ConfigValue (σ : Type) where
  | null
  | bool (b : Bool)
  | int (i : Int)
  | int64 (i : Int)
  | str (s : String)
  | database (db : Database σ)

/-- The configuration map handed to the plugin by the host. -/
abbrev ConfigMap (σ : Type) := List (String × ConfigValue σ)

/-- The expression `config[key]`: the stored value, the `nil` interface value
for a missing key. -/
def ConfigMap.get {σ : Type} (m : ConfigMap σ) (key : String) : ConfigValue σ :=
  (m.lookup key).getD ConfigValue.null

/-- The struct `SkeletonPlugin` of `plugin.go`; `none` is a `nil` field. -/
structure SkeletonPlugin (σ : Type) where
  config : Config
  db : Option (Database σ)
  handler : Option (Handler σ)
  repo : Option (Repository σ)

/-- The function `NewPlugin`: the zero value `&SkeletonPlugin{}`. -/
def NewPlugin {σ : Type} : SkeletonPlugin σ :=
  { config := { Enabled := false, MaxItems := 0 }, db := none, handler := none, repo := none }

/-- Lines 26-38 of `plugin.go`: the defaults, then the three type assertions
on the map, each assigning its field only when the assertion holds. -/
def SkeletonPlugin.resolve {σ : Type} (p : SkeletonPlugin σ) (config : ConfigMap σ) :
    SkeletonPlugin σ :=
  let p := { p with config := DefaultConfig }
  let p := match config.get "database" with
    | ConfigValue.database db => { p with db := some db }
    | _ => p
  let p := match config.get "enabled" with
    | ConfigValue.bool enabled => { p with config := { p.config with Enabled := enabled } }
    | _ => p
  match config.get "max_items" with
  | ConfigValue.int maxItems => { p with config := { p.config with MaxItems := maxItems } }
  | _ => p

/-- The method `SkeletonPlugin.Initialize`: the returned error and the plugin
after the call. -/
def SkeletonPlugin.Initialize {σ : Type} (p : SkeletonPlugin σ) (config : ConfigMap σ) :
    Option String × SkeletonPlugin σ :=
  let p := SkeletonPlugin.resolve p config
  match Config.Validate p.config with
  | (some err, c) => (some err, { p with config := c })
  | (none, c) =>
    let p := { p with config := c }
    match p.db with
    | some db =>
      (none, { p with repo := some (NewRepository db)
                      handler := some (NewHandler (NewRepository db) p.config) })
    | none => (none, p)

/-- The method `SkeletonPlugin.Config`. -/
def SkeletonPlugin.Config {σ : Type} (p : SkeletonPlugin σ) : Config := p.config

/-! ## Lemmas on the pagination parameters -/

theorem Atoi_empty : Atoi "" = none := by decide

theorem listLimit_of_empty (m : Int) : listLimit "" m = 20 := by
  simp [listLimit]

theorem listLimit_of_error (p : String) (m : Int) (h : Atoi p = none) : listLimit p m = 20 := by
  unfold listLimit
  split <;> simp [h]

theorem listLimit_of_nonpos (p : String) (m l : Int) (h : Atoi p = some l) (hl : l ≤ 0) :
    listLimit p m = 20 := by
  unfold listLimit
  split
  · simp [h, not_lt.mpr hl]
  · rfl

theorem listLimit_of_pos (p : String) (m l : Int) (h : Atoi p = some l) (hl : 0 < l) :
    listLimit p m = if l > m then m else l := by
  have hp : p ≠ "" := by
    intro hp
    rw [hp, Atoi_empty] at h
    cases h
  unfold listLimit
  simp [hp, h, hl]

/-- A decimal numeral outside the range of `int` is rejected by
`strconv.Atoi`, so it counts as no integer: the limit falls back to 20. -/
theorem listLimit_of_out_of_range : listLimit "9223372036854775808" 100 = 20 := by
  decide

theorem listOffset_of_empty : listOffset "" = 0 := by
  simp [listOffset]

theorem listOffset_of_error (p : String) (h : Atoi p = none) : listOffset p = 0 := by
  unfold listOffset
  split <;> simp [h]

theorem listOffset_of_neg (p : String) (o : Int) (h : Atoi p = some o) (ho : o < 0) :
    listOffset p = 0 := by
  unfold listOffset
  split
  · simp [h, not_le.mpr ho]
  · rfl

theorem listOffset_of_nonneg (p : String) (o : Int) (h : Atoi p = some o) (ho : 0 ≤ o) :
    listOffset p = o := by
  have hp : p ≠ "" := by
    intro hp
    rw [hp, Atoi_empty] at h
    cases h
  unfold listOffset
  simp [hp, h, ho]

theorem listOffset_nonneg (p : String) : 0 ≤ listOffset p := by
  unfold listOffset
  split
  · split
    · split
      · assumption
      · exact le_refl 0
    · exact le_refl 0
  · exact le_refl 0

/-! ## Lemmas on `Handler.List` -/

/-- For an authenticated caller, `Handler.List` makes exactly one Repository
call: `List` with the caller, the computed limit and the computed offset. -/
theorem list_log {σ : Type} (h : Handler σ) (env : Env) (c : Ctx) (s : σ)
    (log : CallLog) (userID : String) (userUUID : UUID)
    (hauth : c.Locals "user_id" = some userID) (hparse : env.Parse userID = some userUUID) :
    (Handler.List h.spied env c (s, log)).2.2 =
      log ++ [RepoCall.list userUUID (listLimit (c.Query "limit") h.config.MaxItems)
        (listOffset (c.Query "offset"))] := by
  unfold Handler.List
  simp only [hauth, hparse, Handler.spied, NewHandler, Spy]
  split <;> (rename_i heq; rw [← (Prod.mk.inj heq).2])

/-- For an authenticated caller, when the Repository call succeeds the
response is 200 with the computed limit and offset in the envelope. -/
theorem list_ok {σ : Type} (h : Handler σ) (env : Env) (c : Ctx) (s s1 : σ)
    (userID : String) (userUUID : UUID) (items : Slice Item) (total : Int)
    (hauth : c.Locals "user_id" = some userID) (hparse : env.Parse userID = some userUUID)
    (hrepo : h.repo.List userUUID (listLimit (c.Query "limit") h.config.MaxItems)
      (listOffset (c.Query "offset")) s = (Except.ok (items, total), s1)) :
    (Handler.List h env c s).1 =
      ⟨StatusOK, Body.list
        { Items := if items = none then some [] else items
          Total := total
          Limit := listLimit (c.Query "limit") h.config.MaxItems
          Offset := listOffset (c.Query "offset") }⟩ := by
  unfold Handler.List
  simp only [hauth, hparse, hrepo]

/-- For an authenticated caller, the response of `Handler.List` is an error
response only when the Repository call itself fails, and then it is 500. -/
theorem list_status {σ : Type} (h : Handler σ) (env : Env) (c : Ctx) (s : σ)
    (userID : String) (userUUID : UUID)
    (hauth : c.Locals "user_id" = some userID) (hparse : env.Parse userID = some userUUID) :
    (Handler.List h env c s).1.status = StatusOK ∨
      ((Handler.List h env c s).1.status = StatusInternalServerError ∧
        ∃ e, (h.repo.List userUUID (listLimit (c.Query "limit") h.config.MaxItems)
          (listOffset (c.Query "offset")) s).1 = Except.error e) := by
  unfold Handler.List
  simp only [hauth, hparse]
  split
  · next e s1 heq => exact Or.inr ⟨rfl, e, by rw [heq]⟩
  · exact Or.inl rfl

/-! ## Pagination: the effective limit and offset of `Handler.List` -/

/-- C1: the effective limit of `Handler.List`, for every query string and
every `MaxItems`.  When the `limit` argument is absent, empty, rejected by
`strconv.Atoi` (not an integer of type `int`), or an integer `l <= 0`, the
limit is 20; when it is an integer `l > 0` the limit is `MaxItems` if
`l > MaxItems` and `l` otherwise (`limit=500` with `MaxItems = 100` gives 100,
`limit=-5` gives 20).  For an authenticated caller this limit is the one
passed to `Repository.List` (the single Repository call made) and the `limit`
field of the envelope, and the response is an error only when the Repository
call itself fails: no value of `limit` yields a 400. -/
theorem list_effective_limit {σ : Type} (h : Handler σ) (env : Env) (c : Ctx) (s : σ)
    (log : CallLog) :
    ((c.queries.lookup "limit" = none ∨ c.queries.lookup "limit" = some "" ∨
        (∃ p, c.queries.lookup "limit" = some p ∧ Atoi p = none) ∨
        (∃ p l, c.queries.lookup "limit" = some p ∧ Atoi p = some l ∧ l ≤ 0)) →
      listLimit (c.Query "limit") h.config.MaxItems = 20) ∧
    (∀ p l, c.queries.lookup "limit" = some p → Atoi p = some l → 0 < l →
      listLimit (c.Query "limit") h.config.MaxItems =
        if l > h.config.MaxItems then h.config.MaxItems else l) ∧
    (listLimit "500" 100 = 100 ∧ listLimit "-5" 100 = 20) ∧
    (∀ userID userUUID, c.Locals "user_id" = some userID → env.Parse userID = some userUUID →
      (Handler.List h.spied env c (s, log)).2.2 =
          log ++ [RepoCall.list userUUID (listLimit (c.Query "limit") h.config.MaxItems)
            (listOffset (c.Query "offset"))] ∧
        (∀ items total s1,
          h.repo.List userUUID (listLimit (c.Query "limit") h.config.MaxItems)
              (listOffset (c.Query "offset")) s = (Except.ok (items, total), s1) →
          (Handler.List h env c s).1 =
            ⟨StatusOK, Body.list
              { Items := if items = none then some [] else items
                Total := total
                Limit := listLimit (c.Query "limit") h.config.MaxItems
                Offset := listOffset (c.Query "offset") }⟩) ∧
        ((Handler.List h env c s).1.status = StatusOK ∨
          ((Handler.List h env c s).1.status = StatusInternalServerError ∧
            ∃ e, (h.repo.List userUUID (listLimit (c.Query "limit") h.config.MaxItems)
              (listOffset (c.Query "offset")) s).1 = Except.error e))) := by
  refine ⟨?_, ?_, ⟨by decide, by decide⟩, ?_⟩
  · rintro (h0 | h0 | ⟨p, h0, hp⟩ | ⟨p, l, h0, hp, hl⟩)
    · simp [Ctx.Query, h0, listLimit_of_empty]
    · simp [Ctx.Query, h0, listLimit_of_empty]
    · simp only [Ctx.Query, h0, Option.getD_some]
      exact listLimit_of_error p _ hp
    · simp only [Ctx.Query, h0, Option.getD_some]
      exact listLimit_of_nonpos p _ l hp hl
  · intro p l h0 hp hl
    simp only [Ctx.Query, h0, Option.getD_some]
    exact listLimit_of_pos p _ l hp hl
  · intro userID userUUID hauth hparse
    exact ⟨list_log h env c s log userID userUUID hauth hparse,
      fun items total s1 hrepo => list_ok h env c s s1 userID userUUID items total hauth hparse hrepo,
      list_status h env c s userID userUUID hauth hparse⟩

/-- C1 at a concrete request: user 7 asks for `limit=500` under
`MaxItems = 100`; the Repository receives limit 100 and the envelope reports
100 with status 200. -/
theorem list_effective_limit_witness :
    (listCtx [("limit", "500")]).Locals "user_id" = some "7" ∧ env0.Parse "7" = some 7 ∧
      (Handler.List (memHandler 100).spied env0 (listCtx [("limit", "500")]) (store0, [])).2.2 =
        [RepoCall.list 7 100 0] ∧
      (Handler.List (memHandler 100) env0 (listCtx [("limit", "500")]) store0).1 =
        ⟨200, Body.list ⟨some [⟨1, "first", "a row", 7, true, 10, none⟩], 1, 100, 0⟩⟩ :=
  ⟨by decide, by decide,
    by
      have key := (list_effective_limit (memHandler 100) env0 (listCtx [("limit", "500")])
        store0 []).2.2.2 "7" 7 (by decide) (by decide)
      refine ⟨?_, ?_⟩
      · rw [key.1]; decide
      · rw [key.2.1 (some [⟨1, "first", "a row", 7, true, 10, none⟩]) 1 store0 rfl]
        decide⟩

/-- C2 (the failing input): `MaxItems = 10` passes `Config.Validate`; a List
request without a `limit` argument reaches `Repository.List` with limit 20
and reports limit 20, which is above the configured maximum. -/
theorem list_default_limit_above_max :
    (Config.Validate { Enabled := true, MaxItems := 10 }).1 = none ∧
      listLimit ((listCtx []).Query "limit") 10 = 20 ∧
      Handler.List (memHandler 10).spied env0 (listCtx []) (store0, []) =
        (⟨200, Body.list ⟨some [⟨1, "first", "a row", 7, true, 10, none⟩], 1, 20, 0⟩⟩,
          (store0, [RepoCall.list 7 20 0])) ∧
      ¬ ((20 : Int) ≤ (memHandler 10).config.MaxItems) := by
  decide

/-- C3: the effective offset of `Handler.List`, for every query string.  When
the `offset` argument is absent, empty, rejected by `strconv.Atoi` (not an
integer of type `int`), or a negative integer, the offset is 0; when it is an
integer `o >= 0` the offset is `o`; it is never negative (`offset=-1` gives
0).  For an authenticated caller this offset is the one passed to
`Repository.List` and the `offset` field of the envelope, and the request is
not rejected: the response is an error only when the Repository call itself
fails. -/
theorem list_effective_offset {σ : Type} (h : Handler σ) (env : Env) (c : Ctx) (s : σ)
    (log : CallLog) :
    ((c.queries.lookup "offset" = none ∨ c.queries.lookup "offset" = some "" ∨
        (∃ p, c.queries.lookup "offset" = some p ∧ Atoi p = none) ∨
        (∃ p o, c.queries.lookup "offset" = some p ∧ Atoi p = some o ∧ o < 0)) →
      listOffset (c.Query "offset") = 0) ∧
    (∀ p o, c.queries.lookup "offset" = some p → Atoi p = some o → 0 ≤ o →
      listOffset (c.Query "offset") = o) ∧
    0 ≤ listOffset (c.Query "offset") ∧
    listOffset "-1" = 0 ∧
    (∀ userID userUUID, c.Locals "user_id" = some userID → env.Parse userID = some userUUID →
      (∃ limit, (Handler.List h.spied env c (s, log)).2.2 =
          log ++ [RepoCall.list userUUID limit (listOffset (c.Query "offset"))]) ∧
        (∀ items total s1,
          h.repo.List userUUID (listLimit (c.Query "limit") h.config.MaxItems)
              (listOffset (c.Query "offset")) s = (Except.ok (items, total), s1) →
          ∃ r, (Handler.List h env c s).1 = ⟨StatusOK, Body.list r⟩ ∧
            r.Offset = listOffset (c.Query "offset")) ∧
        ((Handler.List h env c s).1.status = StatusOK ∨
          ((Handler.List h env c s).1.status = StatusInternalServerError ∧
            ∃ e, (h.repo.List userUUID (listLimit (c.Query "limit") h.config.MaxItems)
              (listOffset (c.Query "offset")) s).1 = Except.error e))) := by
  refine ⟨?_, ?_, listOffset_nonneg _, by decide, ?_⟩
  · rintro (h0 | h0 | ⟨p, h0, hp⟩ | ⟨p, o, h0, hp, ho⟩)
    · simp [Ctx.Query, h0, listOffset_of_empty]
    · simp [Ctx.Query, h0, listOffset_of_empty]
    · simp only [Ctx.Query, h0, Option.getD_some]
      exact listOffset_of_error p hp
    · simp only [Ctx.Query, h0, Option.getD_some]
      exact listOffset_of_neg p o hp ho
  · intro p o h0 hp ho
    simp only [Ctx.Query, h0, Option.getD_some]
    exact listOffset_of_nonneg p o hp ho
  · intro userID userUUID hauth hparse
    exact ⟨⟨_, list_log h env c s log userID userUUID hauth hparse⟩,
      fun items total s1 hrepo =>
        ⟨_, list_ok h env c s s1 userID userUUID items total hauth hparse hrepo, rfl⟩,
      list_status h env c s userID userUUID hauth hparse⟩

/-- C3 at a concrete request: user 7 asks for `offset=-1`; the Repository
receives offset 0 and the envelope reports offset 0 with status 200. -/
theorem list_effective_offset_witness :
    (listCtx [("offset", "-1")]).Locals "user_id" = some "7" ∧ env0.Parse "7" = some 7 ∧
      (∃ limit, (Handler.List (memHandler 100).spied env0 (listCtx [("offset", "-1")])
        (store0, [])).2.2 = [RepoCall.list 7 limit 0]) ∧
      (Handler.List (memHandler 100) env0 (listCtx [("offset", "-1")]) store0).1.status = 200 :=
  ⟨by decide, by decide,
    by
      have key := (list_effective_offset (memHandler 100) env0 (listCtx [("offset", "-1")])
        store0 []).2.2.2.2 "7" 7 (by decide) (by decide)
      refine ⟨?_, ?_⟩
      · obtain ⟨limit, hl⟩ := key.1
        exact ⟨limit, by rw [hl]; rfl⟩
      · obtain ⟨r, hr, -⟩ :=
          key.2.1 (some [⟨1, "first", "a row", 7, true, 10, none⟩]) 1 store0 rfl
        rw [hr]; rfl⟩

/-! ## Config -/

/-- C9: `Config.Validate` returns an error exactly when `MaxItems < 1` or
`MaxItems > 1000`, that is, it returns nil exactly for
`1 <= MaxItems <= 1000` (1 and 1000 accepted; 0, -1 and 1001 rejected).  The
result does not depend on `Enabled`, the receiver is left unchanged, and
`DefaultConfig()` is `Enabled = true`, `MaxItems = 100` and passes. -/
theorem validate_accepts_iff (c : Config) :
    (c.Validate.1 ≠ none ↔ (c.MaxItems < 1 ∨ c.MaxItems > 1000)) ∧
    (c.Validate.1 = none ↔ (1 ≤ c.MaxItems ∧ c.MaxItems ≤ 1000)) ∧
    (∀ e : Bool, (Config.Validate { c with Enabled := e }).1 = c.Validate.1) ∧
    c.Validate.2 = c ∧
    (Config.Validate ⟨true, 1⟩).1 = none ∧ (Config.Validate ⟨true, 1000⟩).1 = none ∧
    (Config.Validate ⟨true, 0⟩).1 ≠ none ∧ (Config.Validate ⟨true, -1⟩).1 ≠ none ∧
    (Config.Validate ⟨true, 1001⟩).1 ≠ none ∧
    DefaultConfig = ⟨true, 100⟩ ∧ DefaultConfig.Validate.1 = none := by
  refine ⟨?_, ?_, ?_, ?_, by decide, by decide, by decide, by decide, by decide, rfl, by decide⟩
  · unfold Config.Validate
    by_cases h1 : c.MaxItems < 1
    · simp [h1]
    · by_cases h2 : c.MaxItems > 1000
      · simp [h1, h2]
      · simp [h1, h2]
  · unfold Config.Validate
    by_cases h1 : c.MaxItems < 1
    · simp [h1]
    · by_cases h2 : c.MaxItems > 1000
      · simp [h1, h2]
      · simp only [h1, h2, if_false, true_iff]
        exact ⟨not_lt.mp h1, not_lt.mp h2⟩
  · intro e
    unfold Config.Validate
    by_cases h1 : c.MaxItems < 1
    · simp [h1]
    · by_cases h2 : c.MaxItems > 1000
      · simp [h1, h2]
      · simp [h1, h2]
  · unfold Config.Validate
    split
    · rfl
    · split <;> rfl

/-! ## Update with no field, Create without validation -/

/-- C4: `Handler.Update` with a parsed body in which `name`, `description`
and `active` are all nil, a valid id and an authenticated caller with a valid
user id, responds 400 and makes no Repository call: the call log and the
store are as before the request. -/
theorem update_without_fields_rejected {σ : Type} (h : Handler σ) (env : Env) (c : Ctx) (s : σ)
    (log : CallLog) (id : UUID) (userID : String) (userUUID : UUID)
    (hid : env.Parse (c.Params "id") = some id)
    (hauth : c.Locals "user_id" = some userID) (hparse : env.Parse userID = some userUUID)
    (hbody : c.updateBody = Except.ok ⟨none, none, none⟩) :
    Handler.Update h.spied env c (s, log) =
        (⟨StatusBadRequest, Body.error "No fields to update"⟩, (s, log)) ∧
      (Handler.Update h env c s).1.status = 400 ∧ (Handler.Update h env c s).2 = s := by
  unfold Handler.Update
  simp only [hid, hauth, hparse, hbody]
  refine ⟨?_, ?_, ?_⟩ <;> rfl

/-- C4 at a concrete request: user 7 sends an empty update for item 1. -/
theorem update_without_fields_rejected_witness :
    env0.Parse ((updateCtx "1" ⟨none, none, none⟩).Params "id") = some 1 ∧
      (updateCtx "1" ⟨none, none, none⟩).Locals "user_id" = some "7" ∧
      env0.Parse "7" = some 7 ∧
      Handler.Update (memHandler 100).spied env0 (updateCtx "1" ⟨none, none, none⟩) (store0, []) =
        (⟨StatusBadRequest, Body.error "No fields to update"⟩, (store0, [])) :=
  ⟨by decide, by decide, by decide,
    (update_without_fields_rejected (memHandler 100) env0 (updateCtx "1" ⟨none, none, none⟩)
      store0 [] 1 "7" 7 (by decide) (by decide) (by decide) rfl).1⟩

/-- C5 (the failing input): `Handler.Create` performs no check on the parsed
body.  For every authenticated request with a parsed body, whatever the
lengths of `name` and `description`, `Repository.Create` is called with the
item built from the body and the status is 201 or 500, never 400; in
particular a body with an empty name is stored and answered with 201. -/
theorem create_skips_body_validation :
    (∀ (σ : Type) (h : Handler σ) (env : Env) (c : Ctx) (s : σ) (log : CallLog)
        (req : CreateItemRequest) (userID : String) (userUUID : UUID),
        c.createBody = Except.ok req → c.Locals "user_id" = some userID →
        env.Parse userID = some userUUID →
        (Handler.Create h.spied env c (s, log)).2.2 =
            log ++ [RepoCall.create ⟨env.New, req.Name, req.Description, userUUID, req.Active,
              env.Now, none⟩] ∧
          ((Handler.Create h env c s).1.status = 201 ∨
            (Handler.Create h env c s).1.status = 500)) ∧
      Handler.Create (memHandler 100).spied env0 (createCtx ⟨"", "d", true⟩) (store0, []) =
        (⟨201, Body.item ⟨1000, "", "d", 7, true, 77, none⟩⟩,
          ({ rows := store0.rows ++ [⟨1000, "", "d", 7, true, 77, none⟩], now := 50 },
            [RepoCall.create ⟨1000, "", "d", 7, true, 77, none⟩])) := by
  refine ⟨?_, by decide⟩
  intro σ h env c s log req userID userUUID hbody hauth hparse
  unfold Handler.Create
  simp only [hbody, hauth, hparse, Handler.spied, NewHandler, Spy]
  refine ⟨?_, ?_⟩
  · split <;> (rename_i heq; rw [← (Prod.mk.inj heq).2])
  · split
    · exact Or.inr rfl
    · exact Or.inl rfl

/-! ## Rows that match no `(id, userID)` predicate -/

theorem ownedBy_false_of_absent (id userID : UUID) (rows : List Item)
    (h : ∀ it ∈ rows, it.ID ≠ id) : ∀ it ∈ rows, ownedBy id userID it = false := by
  intro it hit
  simp [ownedBy, h it hit]

theorem ownedBy_false_of_foreign (id userID : UUID) (rows : List Item)
    (h : ∀ it ∈ rows, it.ID = id → it.UserID ≠ userID) :
    ∀ it ∈ rows, ownedBy id userID it = false := by
  intro it hit
  by_cases hid : it.ID = id
  · simp [ownedBy, h it hit hid]
  · simp [ownedBy, hid]

theorem filter_ownedBy_nil (id userID : UUID) (rows : List Item)
    (h : ∀ it ∈ rows, ownedBy id userID it = false) : rows.filter (ownedBy id userID) = [] := by
  rw [List.filter_eq_nil_iff]
  intro it hit
  simp [h it hit]

theorem filter_not_ownedBy_self (id userID : UUID) (rows : List Item)
    (h : ∀ it ∈ rows, ownedBy id userID it = false) :
    rows.filter (fun it => !ownedBy id userID it) = rows := by
  rw [List.filter_eq_self]
  intro it hit
  simp [h it hit]

theorem map_setRow_self (id userID : UUID) (a1 a2 a3 : Value) (now : Time) (rows : List Item)
    (h : ∀ it ∈ rows, ownedBy id userID it = false) :
    rows.map (fun it => if ownedBy id userID it then setRow a1 a2 a3 now it else it) = rows := by
  induction rows with
  | nil => rfl
  | cons r rs ih =>
    have hr : ownedBy id userID r = false := h r (List.mem_cons_self r rs)
    have hrs : ∀ it ∈ rs, ownedBy id userID it = false :=
      fun it hit => h it (List.mem_cons_of_mem r hit)
    simp only [List.map_cons, hr, ih hrs]
    rfl

theorem memExec_update_noMatch (s : Store) (id userID : UUID) (a1 a2 a3 : Value)
    (h : ∀ it ∈ s.rows, ownedBy id userID it = false) :
    memExec Stmt.updateItem [a1, a2, a3, Value.uuid id, Value.uuid userID] s =
      if textArg a1 && textArg a2 && boolArg a3 then (Except.ok ⟨Except.ok 0⟩, s)
      else (Except.error "invalid input for parameter", s) := by
  simp only [memExec, filter_ownedBy_nil id userID s.rows h,
    map_setRow_self id userID _ _ _ s.now s.rows h]
  rfl

/-- On a store where no row matches `(id, userID)`, `repository.Update` leaves
the store as it is and returns an error that depends on the arguments only. -/
theorem update_of_noMatch (s : Store) (id userID : UUID) (updates : GoMap)
    (h : ∀ it ∈ s.rows, ownedBy id userID it = false) :
    repository.Update memDB id userID updates s =
      (some (if textArg (updates.get "name") && textArg (updates.get "description") &&
          boolArg (updates.get "active") then "item not found or permission denied"
        else "failed to update item: invalid input for parameter"), s) := by
  unfold repository.Update
  simp only [memDB]
  rw [memExec_update_noMatch s id userID _ _ _ h]
  by_cases hc : (textArg (updates.get "name") && textArg (updates.get "description") &&
      boolArg (updates.get "active")) = true
  · simp only [hc, if_true]
  · simp only [hc, if_false]
    rfl

/-- On a store where no row matches `(id, userID)`, `repository.Delete` leaves
the store as it is and returns the fixed error. -/
theorem delete_of_noMatch (s : Store) (id userID : UUID)
    (h : ∀ it ∈ s.rows, ownedBy id userID it = false) :
    repository.Delete memDB id userID s = (some "item not found or permission denied", s) := by
  unfold repository.Delete
  simp only [memDB, memExec, filter_ownedBy_nil id userID s.rows h,
    filter_not_ownedBy_self id userID s.rows h]
  rfl

/-- On a store where no row matches `(id, userID)`, the response of
`Handler.Update` is a function of the request alone and the store is left as
it is. -/
theorem handler_update_of_noMatch (cfg : Config) (env : Env) (c : Ctx) (s : Store)
    (id : UUID) (uid : String) (userID : UUID)
    (hid : env.Parse (c.Params "id") = some id)
    (hauth : c.Locals "user_id" = some uid) (hparse : env.Parse uid = some userID)
    (h : ∀ it ∈ s.rows, ownedBy id userID it = false) :
    Handler.Update (NewHandler (NewRepository memDB) cfg) env c s =
      (match c.updateBody with
        | Except.error _ => ⟨StatusBadRequest, Body.error "Invalid request body"⟩
        | Except.ok req =>
          if (buildUpdates req).len = 0 then ⟨StatusBadRequest, Body.error "No fields to update"⟩
          else ⟨StatusInternalServerError, Body.error "Failed to update item"⟩, s) := by
  unfold Handler.Update
  simp only [hid, hauth, hparse, NewHandler, NewRepository]
  cases c.updateBody with
  | error e => rfl
  | ok req =>
    by_cases hlen : (buildUpdates req).len = 0
    · simp only [hlen, if_true]
    · simp only [hlen, if_false]
      rw [update_of_noMatch s id userID _ h]

/-- On a store where no row matches `(id, userID)`, `Handler.Delete` answers
404 and the store is left as it is. -/
theorem handler_delete_of_noMatch (cfg : Config) (env : Env) (c : Ctx) (s : Store)
    (id : UUID) (uid : String) (userID : UUID)
    (hid : env.Parse (c.Params "id") = some id)
    (hauth : c.Locals "user_id" = some uid) (hparse : env.Parse uid = some userID)
    (h : ∀ it ∈ s.rows, ownedBy id userID it = false) :
    Handler.Delete (NewHandler (NewRepository memDB) cfg) env c s =
      (⟨StatusNotFound, Body.error "Item not found or permission denied"⟩, s) := by
  unfold Handler.Delete
  simp only [hid, hauth, hparse, NewHandler, NewRepository]
  rw [delete_of_noMatch s id userID h]

/-! ## Not found and not owned -/

/-- C6: not-found and not-owned are indistinguishable.  For every database
port, whenever `Exec` succeeds and `RowsAffected` reports zero,
`repository.Update` and `repository.Delete` return the fixed error
"item not found or permission denied", whatever `id`, `userID` and `updates`
are.  As two runs on the in-memory store, one where no row has the id and one
where the id exists but every row with it belongs to another owner: the
results of `repository.Update` and of `repository.Delete` are equal, and so
are the responses (status and body) of `Handler.Update` and of
`Handler.Delete`. -/
theorem not_found_not_owned_indistinguishable :
    (∀ (σ : Type) (db : Database σ) (id userID : UUID) (updates : GoMap) (s s1 : σ)
        (result : Result),
        db.Exec Stmt.updateItem [updates.get "name", updates.get "description",
          updates.get "active", Value.uuid id, Value.uuid userID] s = (Except.ok result, s1) →
        result.RowsAffected = Except.ok 0 →
        repository.Update db id userID updates s =
          (some "item not found or permission denied", s1)) ∧
    (∀ (σ : Type) (db : Database σ) (id userID : UUID) (s s1 : σ) (result : Result),
        db.Exec Stmt.deleteItem [Value.uuid id, Value.uuid userID] s = (Except.ok result, s1) →
        result.RowsAffected = Except.ok 0 →
        repository.Delete db id userID s = (some "item not found or permission denied", s1)) ∧
    (∀ (sA sB : Store) (id userID : UUID),
        (∀ it ∈ sA.rows, it.ID ≠ id) →
        (∃ it ∈ sB.rows, it.ID = id) → (∀ it ∈ sB.rows, it.ID = id → it.UserID ≠ userID) →
        (∀ updates : GoMap, (repository.Update memDB id userID updates sA).1 =
          (repository.Update memDB id userID updates sB).1) ∧
        (repository.Delete memDB id userID sA).1 = (repository.Delete memDB id userID sB).1 ∧
        (∀ (cfg : Config) (env : Env) (c : Ctx) (uid : String),
          env.Parse (c.Params "id") = some id → c.Locals "user_id" = some uid →
          env.Parse uid = some userID →
          (Handler.Update (NewHandler (NewRepository memDB) cfg) env c sA).1 =
              (Handler.Update (NewHandler (NewRepository memDB) cfg) env c sB).1 ∧
            (Handler.Delete (NewHandler (NewRepository memDB) cfg) env c sA).1 =
              (Handler.Delete (NewHandler (NewRepository memDB) cfg) env c sB).1)) := by
  refine ⟨?_, ?_, ?_⟩
  · intro σ db id userID updates s s1 result hexec hrows
    unfold repository.Update
    simp only [hexec, hrows, if_true]
  · intro σ db id userID s s1 result hexec hrows
    unfold repository.Delete
    simp only [hexec, hrows, if_true]
  · intro sA sB id userID hA _ hB
    have hA1 := ownedBy_false_of_absent id userID sA.rows hA
    have hB1 := ownedBy_false_of_foreign id userID sB.rows hB
    refine ⟨?_, ?_, ?_⟩
    · intro updates
      rw [update_of_noMatch sA id userID updates hA1, update_of_noMatch sB id userID updates hB1]
    · rw [delete_of_noMatch sA id userID hA1, delete_of_noMatch sB id userID hB1]
    · intro cfg env c uid hid hauth hparse
      rw [handler_update_of_noMatch cfg env c sA id uid userID hid hauth hparse hA1,
        handler_update_of_noMatch cfg env c sB id uid userID hid hauth hparse hB1,
        handler_delete_of_noMatch cfg env c sA id uid userID hid hauth hparse hA1,
        handler_delete_of_noMatch cfg env c sB id uid userID hid hauth hparse hB1]
      exact ⟨rfl, rfl⟩

/-- C6 at two concrete stores: item 2 is absent from `store0` and belongs to
user 8 in `store1`; user 7 gets the same responses in both. -/
theorem not_found_not_owned_indistinguishable_witness :
    (∀ it ∈ store0.rows, it.ID ≠ 2) ∧ (∃ it ∈ store1.rows, it.ID = 2) ∧
      (∀ it ∈ store1.rows, it.ID = 2 → it.UserID ≠ 7) ∧
      (Handler.Update (memHandler 100) env0 (updateCtx "2" ⟨some "x", none, none⟩) store0).1 =
        (Handler.Update (memHandler 100) env0 (updateCtx "2" ⟨some "x", none, none⟩) store1).1 ∧
      (Handler.Delete (memHandler 100) env0 (itemCtx "2") store0).1 =
        (Handler.Delete (memHandler 100) env0 (itemCtx "2") store1).1 :=
  ⟨by decide, by decide, by decide,
    ((not_found_not_owned_indistinguishable.2.2 store0 store1 2 7 (by decide) (by decide)
      (by decide)).2.2 ⟨true, 100⟩ env0 (updateCtx "2" ⟨some "x", none, none⟩) "7"
      (by decide) (by decide) (by decide)).1,
    ((not_found_not_owned_indistinguishable.2.2 store0 store1 2 7 (by decide) (by decide)
      (by decide)).2.2 ⟨true, 100⟩ env0 (itemCtx "2") "7"
      (by decide) (by decide) (by decide)).2⟩

/-! ## Status codes for Repository failures -/

/-- C7 (the failing input): whenever `Repository.Update` returns an error,
the zero-rows error included, `Handler.Update` responds 500
"Failed to update item", while `Handler.Delete` responds 404 to every error of
`Repository.Delete`.  On the in-memory store, user 7 updating the missing
item 2 gets the Repository error "item not found or permission denied" and
status 500; deleting it gets status 404. -/
theorem update_zero_rows_status :
    (∀ (σ : Type) (h : Handler σ) (env : Env) (c : Ctx) (s s1 : σ) (id : UUID) (uid : String)
        (userUUID : UUID) (req : UpdateItemRequest) (e : String),
        env.Parse (c.Params "id") = some id → c.Locals "user_id" = some uid →
        env.Parse uid = some userUUID → c.updateBody = Except.ok req →
        (buildUpdates req).len ≠ 0 →
        h.repo.Update id userUUID (buildUpdates req) s = (some e, s1) →
        (Handler.Update h env c s).1 =
          ⟨StatusInternalServerError, Body.error "Failed to update item"⟩) ∧
    (∀ (σ : Type) (h : Handler σ) (env : Env) (c : Ctx) (s s1 : σ) (id : UUID) (uid : String)
        (userUUID : UUID) (e : String),
        env.Parse (c.Params "id") = some id → c.Locals "user_id" = some uid →
        env.Parse uid = some userUUID →
        h.repo.Delete id userUUID s = (some e, s1) →
        (Handler.Delete h env c s).1 =
          ⟨StatusNotFound, Body.error "Item not found or permission denied"⟩) ∧
    repository.Update memDB 2 7 (buildUpdates ⟨some "x", none, none⟩) store0 =
      (some "item not found or permission denied", store0) ∧
    Handler.Update (memHandler 100) env0 (updateCtx "2" ⟨some "x", none, none⟩) store0 =
      (⟨500, Body.error "Failed to update item"⟩, store0) ∧
    repository.Delete memDB 2 7 store0 = (some "item not found or permission denied", store0) ∧
    Handler.Delete (memHandler 100) env0 (itemCtx "2") store0 =
      (⟨404, Body.error "Item not found or permission denied"⟩, store0) := by
  refine ⟨?_, ?_, by decide, by decide, by decide, by decide⟩
  · intro σ h env c s s1 id uid userUUID req e hid hauth hparse hbody hlen hrepo
    unfold Handler.Update
    simp only [hid, hauth, hparse, hbody, hlen, if_false, hrepo]
  · intro σ h env c s s1 id uid userUUID e hid hauth hparse hrepo
    unfold Handler.Delete
    simp only [hid, hauth, hparse, hrepo]

/-- C8 (the failing input): when the statement execution of the store itself
fails, `Handler.GetByID` and `Handler.Delete` respond 404, for every database
port; on the port without connectivity `Create`, `List` and `Update` respond
500 while `GetByID` and `Delete` respond 404. -/
theorem persistence_error_status :
    (∀ (σ : Type) (db : Database σ) (cfg : Config) (env : Env) (c : Ctx) (s s1 : σ) (id : UUID)
        (e : String),
        env.Parse (c.Params "id") = some id →
        db.QueryRow Stmt.selectItemByID [Value.uuid id] s = (Except.error e, s1) →
        (Handler.GetByID (NewHandler (NewRepository db) cfg) env c s).1 =
          ⟨StatusNotFound, Body.error "Item not found"⟩) ∧
    (∀ (σ : Type) (db : Database σ) (cfg : Config) (env : Env) (c : Ctx) (s s1 : σ) (id : UUID)
        (uid : String) (userUUID : UUID) (e : String),
        env.Parse (c.Params "id") = some id → c.Locals "user_id" = some uid →
        env.Parse uid = some userUUID →
        db.Exec Stmt.deleteItem [Value.uuid id, Value.uuid userUUID] s = (Except.error e, s1) →
        (Handler.Delete (NewHandler (NewRepository db) cfg) env c s).1 =
          ⟨StatusNotFound, Body.error "Item not found or permission denied"⟩) ∧
    Handler.GetByID downHandler env0 (itemCtx "1") store0 =
      (⟨404, Body.error "Item not found"⟩, store0) ∧
    Handler.Delete downHandler env0 (itemCtx "1") store0 =
      (⟨404, Body.error "Item not found or permission denied"⟩, store0) ∧
    Handler.Create downHandler env0 (createCtx ⟨"n", "d", true⟩) store0 =
      (⟨500, Body.error "Failed to create item"⟩, store0) ∧
    Handler.List downHandler env0 (listCtx []) store0 =
      (⟨500, Body.error "Failed to list items"⟩, store0) ∧
    Handler.Update downHandler env0 (updateCtx "1" ⟨some "x", none, none⟩) store0 =
      (⟨500, Body.error "Failed to update item"⟩, store0) := by
  refine ⟨?_, ?_, by decide, by decide, by decide, by decide, by decide⟩
  · intro σ db cfg env c s s1 id e hid hq
    unfold Handler.GetByID
    simp only [hid, NewHandler, NewRepository, repository.GetByID, hq]
  · intro σ db cfg env c s s1 id uid userUUID e hid hauth hparse hq
    unfold Handler.Delete
    simp only [hid, hauth, hparse, NewHandler, NewRepository, repository.Delete, hq]

/-! ## The sparse field mask of Update -/

theorem buildUpdates_get_name (req : UpdateItemRequest) :
    (buildUpdates req).get "name" = req.Name.elim Value.null Value.str := by
  rcases req with ⟨_ | n, _ | d, _ | a⟩ <;> rfl

theorem buildUpdates_get_description (req : UpdateItemRequest) :
    (buildUpdates req).get "description" = req.Description.elim Value.null Value.str := by
  rcases req with ⟨_ | n, _ | d, _ | a⟩ <;> rfl

theorem buildUpdates_get_active (req : UpdateItemRequest) :
    (buildUpdates req).get "active" = req.Active.elim Value.null Value.bool := by
  rcases req with ⟨_ | n, _ | d, _ | a⟩ <;> rfl

theorem buildUpdates_has (req : UpdateItemRequest) :
    (buildUpdates req).has "name" = req.Name.isSome ∧
      (buildUpdates req).has "description" = req.Description.isSome ∧
      (buildUpdates req).has "active" = req.Active.isSome := by
  rcases req with ⟨_ | n, _ | d, _ | a⟩ <;> exact ⟨rfl, rfl, rfl⟩

theorem buildUpdates_keys (req : UpdateItemRequest) (k : String)
    (h : (buildUpdates req).has k = true) : k = "name" ∨ k = "description" ∨ k = "active" := by
  by_contra hk
  simp only [not_or] at hk
  obtain ⟨h1, h2, h3⟩ := hk
  have e1 : ("name" == k) = false := by simpa using fun h => h1 h.symm
  have e2 : ("description" == k) = false := by simpa using fun h => h2 h.symm
  have e3 : ("active" == k) = false := by simpa using fun h => h3 h.symm
  have e1k : (k == "name") = false := by simpa using h1
  have e2k : (k == "description") = false := by simpa using h2
  have e3k : (k == "active") = false := by simpa using h3
  rcases req with ⟨_ | n, _ | d, _ | a⟩ <;>
    simp [buildUpdates, GoMap.has, GoMap.set, GoMap.make, List.lookup, List.filter,
      e1, e2, e3, e1k, e2k, e3k] at h

theorem setRow_of_request (req : UpdateItemRequest) (now : Time) (it : Item) :
    setRow (req.Name.elim Value.null Value.str) (req.Description.elim Value.null Value.str)
        (req.Active.elim Value.null Value.bool) now it =
      { it with
        Name := req.Name.getD it.Name
        Description := req.Description.getD it.Description
        Active := req.Active.getD it.Active
        UpdatedAt := some now } := by
  rcases req with ⟨_ | n, _ | d, _ | a⟩ <;> rfl

theorem args_of_request_typed (req : UpdateItemRequest) :
    (textArg (req.Name.elim Value.null Value.str) &&
      textArg (req.Description.elim Value.null Value.str) &&
      boolArg (req.Active.elim Value.null Value.bool)) = true := by
  rcases req with ⟨_ | n, _ | d, _ | a⟩ <;> rfl

theorem filter_ownedBy_length_ne_zero (id userID : UUID) (rows : List Item)
    (h : ∃ it ∈ rows, ownedBy id userID it = true) :
    ((rows.filter (ownedBy id userID)).length : Int) ≠ 0 := by
  obtain ⟨it, hit, hown⟩ := h
  have hmem : it ∈ rows.filter (ownedBy id userID) := List.mem_filter.mpr ⟨hit, hown⟩
  have hpos : 0 < (rows.filter (ownedBy id userID)).length := List.length_pos_of_mem hmem
  exact_mod_cast Nat.pos_iff_ne_zero.mp hpos

/-- The store after `repository.Update` with the map built from `req`: every
row matching `(id, userID)` has the present fields replaced and `updated_at`
set, every other row and every other column is as before. -/
theorem update_store_of_request (req : UpdateItemRequest) (s : Store) (id userID : UUID) :
    (repository.Update memDB id userID (buildUpdates req) s).2 =
      { s with
        rows := s.rows.map (fun it =>
          if it.ID = id ∧ it.UserID = userID then
            { it with
              Name := req.Name.getD it.Name
              Description := req.Description.getD it.Description
              Active := req.Active.getD it.Active
              UpdatedAt := some s.now }
          else it) } := by
  have hfun : (fun it => if ownedBy id userID it = true then
        setRow (req.Name.elim Value.null Value.str) (req.Description.elim Value.null Value.str)
          (req.Active.elim Value.null Value.bool) s.now it else it) =
      (fun it : Item => if it.ID = id ∧ it.UserID = userID then
            { it with
              Name := req.Name.getD it.Name
              Description := req.Description.getD it.Description
              Active := req.Active.getD it.Active
              UpdatedAt := some s.now }
          else it) := by
    funext it
    rw [setRow_of_request]
    simp [ownedBy]
  unfold repository.Update
  simp only [memDB, memExec, buildUpdates_get_name, buildUpdates_get_description,
    buildUpdates_get_active, args_of_request_typed, if_true, hfun]
  split <;> rfl

/-- With a row matching `(id, userID)` in the store, `repository.Update` with
the map built from `req` returns nil. -/
theorem update_ok_of_request (req : UpdateItemRequest) (s : Store) (id userID : UUID)
    (h : ∃ it ∈ s.rows, ownedBy id userID it = true) :
    (repository.Update memDB id userID (buildUpdates req) s).1 = none := by
  unfold repository.Update
  simp only [memDB, memExec, buildUpdates_get_name, buildUpdates_get_description,
    buildUpdates_get_active, args_of_request_typed, if_true,
    filter_ownedBy_length_ne_zero id userID s.rows h, if_false]

/-- The statement and arguments `repository.Update` sends for the map built
from `req`. -/
theorem update_args_of_request {σ : Type} (db : Database σ) (req : UpdateItemRequest)
    (id userID : UUID) (s : σ) (log : StmtLog) :
    (repository.Update (SpyDB db) id userID (buildUpdates req) (s, log)).2.2 =
      log ++ [(Stmt.updateItem,
        [req.Name.elim Value.null Value.str, req.Description.elim Value.null Value.str,
          req.Active.elim Value.null Value.bool, Value.uuid id, Value.uuid userID])] := by
  unfold repository.Update
  simp only [SpyDB, buildUpdates_get_name, buildUpdates_get_description, buildUpdates_get_active]
  split
  · rename_i heq; rw [← (Prod.mk.inj heq).2]
  · rename_i heq
    rw [← (Prod.mk.inj heq).2]
    split
    · rfl
    · split <;> rfl

/-- C10: Update applies a sparse field mask.  For every `UpdateItemRequest`
the map `Handler.Update` builds holds the key `name` / `description` /
`active` exactly when the request field is non-nil, with the pointed-to value,
and holds no other key; `repository.Update` sends NULL for every absent key;
on the store every row matching `(id, userID)` keeps the stored value of each
absent field, takes the supplied value of each present field and has
`updated_at` set to `NOW()`, while `id`, `user_id` and `created_at` and all
other rows are unchanged, and the call returns nil when such a row exists.  In
particular an update with only `name` changes `name` and `updated_at` only. -/
theorem update_sparse_field_mask (req : UpdateItemRequest) :
    ((buildUpdates req).has "name" = req.Name.isSome ∧
      (buildUpdates req).has "description" = req.Description.isSome ∧
      (buildUpdates req).has "active" = req.Active.isSome) ∧
    ((buildUpdates req).get "name" = req.Name.elim Value.null Value.str ∧
      (buildUpdates req).get "description" = req.Description.elim Value.null Value.str ∧
      (buildUpdates req).get "active" = req.Active.elim Value.null Value.bool) ∧
    (∀ k, (buildUpdates req).has k = true → k = "name" ∨ k = "description" ∨ k = "active") ∧
    (∀ (σ : Type) (db : Database σ) (id userID : UUID) (s : σ) (log : StmtLog),
      (repository.Update (SpyDB db) id userID (buildUpdates req) (s, log)).2.2 =
        log ++ [(Stmt.updateItem,
          [req.Name.elim Value.null Value.str, req.Description.elim Value.null Value.str,
            req.Active.elim Value.null Value.bool, Value.uuid id, Value.uuid userID])]) ∧
    (∀ (s : Store) (id userID : UUID),
      (repository.Update memDB id userID (buildUpdates req) s).2 =
          { s with
            rows := s.rows.map (fun it =>
              if it.ID = id ∧ it.UserID = userID then
                { it with
                  Name := req.Name.getD it.Name
                  Description := req.Description.getD it.Description
                  Active := req.Active.getD it.Active
                  UpdatedAt := some s.now }
              else it) } ∧
        ((∃ it ∈ s.rows, it.ID = id ∧ it.UserID = userID) →
          (repository.Update memDB id userID (buildUpdates req) s).1 = none)) ∧
    (∀ (n : String) (s : Store) (id userID : UUID),
      (repository.Update memDB id userID (buildUpdates ⟨some n, none, none⟩) s).2.rows =
        s.rows.map (fun it =>
          if it.ID = id ∧ it.UserID = userID then
            ⟨it.ID, n, it.Description, it.UserID, it.Active, it.CreatedAt, some s.now⟩
          else it)) := by
  refine ⟨buildUpdates_has req,
    ⟨buildUpdates_get_name req, buildUpdates_get_description req, buildUpdates_get_active req⟩,
    buildUpdates_keys req, ?_, ?_, ?_⟩
  · intro σ db id userID s log
    exact update_args_of_request db req id userID s log
  · intro s id userID
    refine ⟨update_store_of_request req s id userID, ?_⟩
    rintro ⟨it, hit, h1, h2⟩
    exact update_ok_of_request req s id userID ⟨it, hit, by simp [ownedBy, h1, h2]⟩
  · intro n s id userID
    rw [update_store_of_request]
    rfl

/-- C10 at a concrete request: user 7 renames item 1; the stored row keeps
its description, flag, id, owner and creation time, and gets `updated_at`. -/
theorem update_sparse_field_mask_witness :
    (∃ it ∈ store0.rows, it.ID = 1 ∧ it.UserID = 7) ∧
      repository.Update memDB 1 7 (buildUpdates ⟨some "renamed", none, none⟩) store0 =
        (none, { rows := [⟨1, "renamed", "a row", 7, true, 10, some 50⟩], now := 50 }) :=
  ⟨by decide,
    Prod.ext
      (((update_sparse_field_mask ⟨some "renamed", none, none⟩).2.2.2.2.1 store0 1 7).2
        (by decide))
      ((((update_sparse_field_mask ⟨some "renamed", none, none⟩).2.2.2.2.1 store0 1 7).1).trans
        (by decide))⟩

/-! ## Plugin initialisation -/

theorem validate_error_iff (c : Config) :
    (Config.Validate c).1 ≠ none ↔ (c.MaxItems < 1 ∨ c.MaxItems > 1000) := by
  unfold Config.Validate
  by_cases h1 : c.MaxItems < 1
  · simp [h1]
  · by_cases h2 : c.MaxItems > 1000
    · simp [h1, h2]
    · simp [h1, h2]

theorem validate_receiver (c : Config) : (Config.Validate c).2 = c := by
  unfold Config.Validate
  split
  · rfl
  · split <;> rfl

theorem resolve_enabled {σ : Type} (p : SkeletonPlugin σ) (m : ConfigMap σ) :
    (SkeletonPlugin.resolve p m).config.Enabled =
      match m.get "enabled" with
      | ConfigValue.bool b => b
      | _ => true := by
  unfold SkeletonPlugin.resolve
  cases m.get "database" <;> cases m.get "enabled" <;> cases m.get "max_items" <;> rfl

theorem resolve_maxItems {σ : Type} (p : SkeletonPlugin σ) (m : ConfigMap σ) :
    (SkeletonPlugin.resolve p m).config.MaxItems =
      match m.get "max_items" with
      | ConfigValue.int i => i
      | _ => 100 := by
  unfold SkeletonPlugin.resolve
  cases m.get "database" <;> cases m.get "enabled" <;> cases m.get "max_items" <;> rfl

theorem resolve_db_isSome {σ : Type} (p : SkeletonPlugin σ) (m : ConfigMap σ) :
    (SkeletonPlugin.resolve p m).db.isSome =
      match m.get "database" with
      | ConfigValue.database _ => true
      | _ => p.db.isSome := by
  unfold SkeletonPlugin.resolve
  cases m.get "database" <;> cases m.get "enabled" <;> cases m.get "max_items" <;> rfl

theorem resolve_repo_handler {σ : Type} (p : SkeletonPlugin σ) (m : ConfigMap σ) :
    (SkeletonPlugin.resolve p m).repo.isSome = p.repo.isSome ∧
      (SkeletonPlugin.resolve p m).handler.isSome = p.handler.isSome := by
  unfold SkeletonPlugin.resolve
  cases m.get "database" <;> cases m.get "enabled" <;> cases m.get "max_items" <;>
    exact ⟨rfl, rfl⟩

theorem initialize_error {σ : Type} (p : SkeletonPlugin σ) (m : ConfigMap σ) :
    (SkeletonPlugin.Initialize p m).1 = (Config.Validate (SkeletonPlugin.resolve p m).config).1 := by
  unfold SkeletonPlugin.Initialize
  generalize SkeletonPlugin.resolve p m = q
  rcases hv : Config.Validate q.config with ⟨_ | e, c⟩
  · cases hdb : q.db <;> simp only [hv, hdb]
  · simp only [hv]

theorem initialize_config {σ : Type} (p : SkeletonPlugin σ) (m : ConfigMap σ) :
    (SkeletonPlugin.Initialize p m).2.config = (SkeletonPlugin.resolve p m).config := by
  unfold SkeletonPlugin.Initialize
  generalize SkeletonPlugin.resolve p m = q
  have hc := validate_receiver q.config
  rcases hv : Config.Validate q.config with ⟨_ | e, c⟩
  · rw [hv] at hc
    cases hdb : q.db <;> simp only [hv, hdb] <;> exact hc
  · rw [hv] at hc
    simp only [hv]
    exact hc

theorem initialize_wiring {σ : Type} (p : SkeletonPlugin σ) (m : ConfigMap σ)
    (hok : (SkeletonPlugin.Initialize p m).1 = none) :
    (SkeletonPlugin.Initialize p m).2.repo.isSome =
        ((SkeletonPlugin.resolve p m).db.isSome || (SkeletonPlugin.resolve p m).repo.isSome) ∧
      (SkeletonPlugin.Initialize p m).2.handler.isSome =
        ((SkeletonPlugin.resolve p m).db.isSome ||
          (SkeletonPlugin.resolve p m).handler.isSome) := by
  revert hok
  unfold SkeletonPlugin.Initialize
  generalize SkeletonPlugin.resolve p m = q
  rcases hv : Config.Validate q.config with ⟨_ | e, c⟩
  · cases hdb : q.db <;> simp only [hv, hdb] <;> intro _ <;> simp
  · simp only [hv]
    intro h
    cases h

/-- C11: `SkeletonPlugin.Initialize` resolves the configuration from the
host's map over the defaults.  For every map (and every receiver) the resolved
`Enabled` is the map's `enabled` value when it is a `bool` and true otherwise,
the resolved `MaxItems` is the map's `max_items` value when it is an `int` and
100 otherwise, and an error is returned exactly when the resolved `MaxItems`
is outside 1..1000: on a new plugin `max_items = 2000` fails, the empty map
succeeds with `Enabled = true`, `MaxItems = 100`, and `max_items = 50`
succeeds with `MaxItems = 50`.  On success, for a receiver whose `db`, `repo`
and `handler` are nil (as `NewPlugin` returns it), the repository and the
handler are non-nil exactly when the map holds a `database` value
implementing the database port. -/
theorem initialize_resolves_config {σ : Type} (p : SkeletonPlugin σ) (m : ConfigMap σ) :
    ((∀ b, m.get "enabled" = ConfigValue.bool b →
        (SkeletonPlugin.Initialize p m).2.config.Enabled = b) ∧
      ((∀ b, m.get "enabled" ≠ ConfigValue.bool b) →
        (SkeletonPlugin.Initialize p m).2.config.Enabled = true)) ∧
    ((∀ i, m.get "max_items" = ConfigValue.int i →
        (SkeletonPlugin.Initialize p m).2.config.MaxItems = i) ∧
      ((∀ i, m.get "max_items" ≠ ConfigValue.int i) →
        (SkeletonPlugin.Initialize p m).2.config.MaxItems = 100)) ∧
    ((SkeletonPlugin.Initialize p m).1 ≠ none ↔
      ((SkeletonPlugin.Initialize p m).2.config.MaxItems < 1 ∨
        (SkeletonPlugin.Initialize p m).2.config.MaxItems > 1000)) ∧
    ((SkeletonPlugin.Initialize (NewPlugin : SkeletonPlugin σ)
        [("max_items", ConfigValue.int 2000)]).1 ≠ none ∧
      (SkeletonPlugin.Initialize (NewPlugin : SkeletonPlugin σ) []).1 = none ∧
      (SkeletonPlugin.Initialize (NewPlugin : SkeletonPlugin σ) []).2.config = ⟨true, 100⟩ ∧
      (SkeletonPlugin.Initialize (NewPlugin : SkeletonPlugin σ)
        [("enabled", ConfigValue.bool true), ("max_items", ConfigValue.int 50)]).1 = none ∧
      (SkeletonPlugin.Initialize (NewPlugin : SkeletonPlugin σ)
        [("enabled", ConfigValue.bool true), ("max_items", ConfigValue.int 50)]).2.config =
          ⟨true, 50⟩) ∧
    (p.db.isSome = false → p.repo.isSome = false → p.handler.isSome = false →
      (SkeletonPlugin.Initialize p m).1 = none →
      (((SkeletonPlugin.Initialize p m).2.repo.isSome = true ↔
          ∃ db, m.get "database" = ConfigValue.database db) ∧
        ((SkeletonPlugin.Initialize p m).2.handler.isSome = true ↔
          ∃ db, m.get "database" = ConfigValue.database db))) := by
  refine ⟨⟨?_, ?_⟩, ⟨?_, ?_⟩, ?_, ⟨?_, rfl, rfl, rfl, rfl⟩, ?_⟩
  · intro b hb
    rw [initialize_config, resolve_enabled, hb]
  · intro hb
    rw [initialize_config, resolve_enabled]
    split
    · next b heq => exact absurd heq (hb b)
    · rfl
  · intro i hi
    rw [initialize_config, resolve_maxItems, hi]
  · intro hi
    rw [initialize_config, resolve_maxItems]
    split
    · next i heq => exact absurd heq (hi i)
    · rfl
  · rw [initialize_error, initialize_config]
    exact validate_error_iff _
  · rw [initialize_error]
    refine (validate_error_iff _).mpr (Or.inr ?_)
    rw [resolve_maxItems]
    show (2000 : Int) > 1000
    decide
  · intro hdb hrepo hhandler hok
    have hw := initialize_wiring p m hok
    have hr := resolve_repo_handler p m
    have hd := resolve_db_isSome p m
    rw [hw.1, hw.2, hr.1, hr.2, hrepo, hhandler, hd, Bool.or_false]
    cases hm : m.get "database" with
    | database db => exact ⟨⟨fun _ => ⟨db, rfl⟩, fun _ => rfl⟩, ⟨fun _ => ⟨db, rfl⟩, fun _ => rfl⟩⟩
    | _ =>
      simp only [hdb]
      refine ⟨⟨?_, ?_⟩, ⟨?_, ?_⟩⟩
      · intro h; cases h
      · rintro ⟨_, h⟩; cases h
      · intro h; cases h
      · rintro ⟨_, h⟩; cases h

/-- C11 at concrete maps on a new plugin: with the in-memory store as
`database` the repository and handler are set, without it they stay nil. -/
theorem initialize_resolves_config_witness :
    (NewPlugin : SkeletonPlugin Store).db.isSome = false ∧
      (SkeletonPlugin.Initialize NewPlugin
        [("database", ConfigValue.database memDB), ("max_items", ConfigValue.int 50)]).1 = none ∧
      ((SkeletonPlugin.Initialize NewPlugin
          [("database", ConfigValue.database memDB), ("max_items", ConfigValue.int 50)]).2.repo.isSome
            = true ↔
        ∃ db, ConfigMap.get
          [("database", ConfigValue.database memDB), ("max_items", ConfigValue.int 50)]
          "database" = ConfigValue.database db) ∧
      (SkeletonPlugin.Initialize (NewPlugin : SkeletonPlugin Store)
        [("max_items", ConfigValue.int64 50)]).2.config.MaxItems = 100 :=
  ⟨rfl, rfl,
    ((initialize_resolves_config (NewPlugin : SkeletonPlugin Store)
      [("database", ConfigValue.database memDB), ("max_items", ConfigValue.int 50)]).2.2.2.2
        rfl rfl rfl rfl).1,
    (initialize_resolves_config (NewPlugin : SkeletonPlugin Store)
      [("max_items", ConfigValue.int64 50)]).2.1.2 (by
        intro i h
        have h2 : ConfigMap.get [("max_items", (ConfigValue.int64 50 : ConfigValue Store))]
            "max_items" = ConfigValue.int64 50 := rfl
        rw [h2] at h
        cases h)⟩

/-! ## The items value of `repository.List` when no rows match -/

/-- When the count query and the page query succeed and the page query
delivers no row, `repository.List` returns the `nil` slice with the total and
a nil error. -/
theorem repository_list_of_no_rows {σ : Type} (db : Database σ) (userID : UUID)
    (limit offset : Int) (s s1 s2 : σ) (cols : List Value) (total : Int) (rows : Rows)
    (hcount : db.QueryRow Stmt.countItems [Value.uuid userID] s = (Except.ok cols, s1))
    (hscan : scanInt cols = Except.ok total)
    (hquery : db.Query Stmt.selectItems [Value.uuid userID, Value.int limit, Value.int offset] s1 =
      (Except.ok rows, s2))
    (hrows : rows.rows = []) (herr : rows.Err = none) :
    repository.List db userID limit offset s = (Except.ok (none, total), s2) := by
  unfold repository.List
  simp only [hcount, hscan, hquery, hrows, herr, scanRows]

/-- C12 (counterexample): on the in-memory store user 9 owns no row; the
count query and the page query succeed, the page query yields zero rows, and
`repository.List` returns the `nil` slice with a nil error, not a non-nil
empty slice. -/
theorem list_no_rows_not_empty_slice :
    (memDB.QueryRow Stmt.countItems [Value.uuid 9] store0).1 = Except.ok [Value.int 0] ∧
    (∃ rows, (memDB.Query Stmt.selectItems [Value.uuid 9, Value.int 20, Value.int 0] store0).1 =
        Except.ok rows ∧ rows.rows = [] ∧ rows.Err = none) ∧
    repository.List memDB 9 20 0 store0 = (Except.ok (none, 0), store0) ∧
    ¬ ∃ total, (repository.List memDB 9 20 0 store0).1 = Except.ok (some [], total) := by
  have hlist : repository.List memDB 9 20 0 store0 = (Except.ok (none, 0), store0) :=
    repository_list_of_no_rows memDB 9 20 0 store0 store0 store0 [Value.int 0] 0
      ⟨[], none⟩ rfl rfl rfl rfl rfl
  refine ⟨rfl, ⟨⟨[], none⟩, rfl, rfl, rfl⟩, hlist, ?_⟩
  rintro ⟨total, h⟩
  rw [hlist] at h
  cases h

/-- C12 (amended): for every database port, user, limit and offset, when the
count query and the page query succeed and the page query yields zero rows,
`repository.List` returns the `nil` slice, which has no element, with the
total and a nil error; the empty slice that is not `nil` is made by
`Handler.List`, which puts `[]Item{}` in place of a `nil` items value, so the
envelope of the response holds an empty, non-nil `items`. -/
theorem list_no_rows_gives_nil {σ : Type} (db : Database σ) (userID : UUID)
    (limit offset : Int) (s s1 s2 : σ) (cols : List Value) (total : Int) (rows : Rows)
    (hcount : db.QueryRow Stmt.countItems [Value.uuid userID] s = (Except.ok cols, s1))
    (hscan : scanInt cols = Except.ok total)
    (hquery : db.Query Stmt.selectItems [Value.uuid userID, Value.int limit, Value.int offset] s1 =
      (Except.ok rows, s2))
    (hrows : rows.rows = []) (herr : rows.Err = none) :
    repository.List db userID limit offset s = (Except.ok (none, total), s2) ∧
    (∀ (cfg : Config) (env : Env) (c : Ctx) (uid : String),
      c.Locals "user_id" = some uid → env.Parse uid = some userID →
      listLimit (c.Query "limit") cfg.MaxItems = limit → listOffset (c.Query "offset") = offset →
      (Handler.List (NewHandler (NewRepository db) cfg) env c s).1 =
        ⟨StatusOK, Body.list ⟨some [], total, limit, offset⟩⟩) := by
  have hlist := repository_list_of_no_rows db userID limit offset s s1 s2 cols total rows
    hcount hscan hquery hrows herr
  refine ⟨hlist, ?_⟩
  intro cfg env c uid hauth hparse hlimit hoffset
  have hrepo : (NewHandler (NewRepository db) cfg).repo.List userID
      (listLimit (c.Query "limit") (NewHandler (NewRepository db) cfg).config.MaxItems)
      (listOffset (c.Query "offset")) s = (Except.ok (none, total), s2) := by
    show repository.List db userID (listLimit (c.Query "limit") cfg.MaxItems)
      (listOffset (c.Query "offset")) s = _
    rw [hlimit, hoffset]
    exact hlist
  rw [list_ok (NewHandler (NewRepository db) cfg) env c s s2 uid userID none total hauth hparse
    hrepo]
  show _ = (⟨StatusOK, Body.list ⟨some [], total, limit, offset⟩⟩ : Response)
  rw [← hlimit, ← hoffset]
  rfl

/-- C12 (amended) on the in-memory store: user 9 owns no row, the Repository
returns the `nil` slice and total 0. -/
theorem list_no_rows_gives_nil_witness :
    memDB.QueryRow Stmt.countItems [Value.uuid 9] store0 = (Except.ok [Value.int 0], store0) ∧
      scanInt [Value.int 0] = Except.ok 0 ∧
      repository.List memDB 9 20 0 store0 = (Except.ok (none, 0), store0) :=
  ⟨rfl, rfl,
    (list_no_rows_gives_nil memDB 9 20 0 store0 store0 store0 [Value.int 0] 0 ⟨[], none⟩
      rfl rfl rfl rfl rfl).1⟩

end Skeleton
